import Mathlib

/-!
Verification development for the `fila-backend` listing service (`src/main.py`).

The service is a small marketplace backend: listings are created, booked,
completed and deleted; a WebSocket `ConnectionManager` broadcasts an
"update" signal to connected observers after each mutating endpoint.

Shallow embedding choices:
* A database table row / pydantic request model `Listing` becomes a Lean
  structure.  Pydantic field defaults (`status = "AVAILABLE"`, optional
  fields defaulting to `None`) become Lean default field values.
* The `listings` table is a `List Listing`; `SELECT ... WHERE id = %s`
  with `fetchone()` is `List.find?`; `UPDATE ... WHERE id = %s` is a
  `List.map` touching the matching rows; `DELETE ... WHERE id = %s` is a
  `List.filter`.
* Each endpoint handler returns the updated table, the JSON envelope it
  replies with, and the number of `manager.broadcast` calls it performed.
* `get_db_connection()` can raise when the store is unreachable; the
  read path of `get_listings` is modelled by threading the outcome of
  the connection/read as an `Except`.  The handler body has no
  `try/except`, so an error input propagates unchanged.
* A WebSocket observer is modelled by an identity tag plus a flag saying
  whether `send_text` raises for it.  `ConnectionManager.broadcast`
  returns the (unchanged) manager state together with the list of
  observers that actually received the message; the `try/except: pass`
  around each send means the function is total and the state untouched.
* `list.remove` in `ConnectionManager.disconnect` raises `ValueError`
  when the element is absent, modelled with `Except`.
-/

/-- The `Listing` pydantic model of `src/main.py` (also the shape of a row in
the `listings` table).  Default field values mirror the pydantic defaults. -/
structure Listing where
  id : Option String := none
  title : String
  price : Int
  lat : Rat
  lng : Rat
  status : String := "AVAILABLE"
  user_id : Option String := none
  user_name : Option String := none
  user_photo : Option String := none
  client_id : Option String := none
deriving Repr, DecidableEq

/-- The JSON envelopes the endpoints reply with: `{"status": "success", ...}`,
`{"status": "error", "message": ...}`, the create endpoint's
`{"status": "success", "id": ...}`, and the raw `fastapi.Response` (with an
explicit HTTP status code) used for the self-booking rejection. -/
inductive ApiResponse where
  | success (message : String)
  | successId (id : String)
  | error (message : String)
  | errorResponse (status_code : Nat) (message : String)
deriving Repr, DecidableEq

/-- Result of an endpoint handler: the listings table after the request, the
response envelope, and how many times `manager.broadcast("update")` ran. -/
abbrev HandlerResult := List Listing × ApiResponse × Nat

/-- `GET /listings`: opens a connection and returns all rows.  There is no
`try/except` in the handler, so a connectivity failure raised by
`get_db_connection()` / the read propagates to the caller; a successful read
returns the rows verbatim. -/
def get_listings (conn : Except String (List Listing)) :
    Except String (List Listing) :=
  match conn with
  | Except.error e => Except.error e
  | Except.ok rows => Except.ok rows

/-- `POST /listings`: overwrites the request's `id` with a fresh
`uuid.uuid4()` (here a parameter `new_id`), INSERTs the row — the INSERT
column list omits `client_id`, so the stored row has `client_id` NULL and
keeps the request's `status` field as supplied — broadcasts once, and
replies `{"status": "success", "id": listing.id}`. -/
def create_listing (db : List Listing) (listing : Listing) (new_id : String) :
    HandlerResult :=
  let row : Listing := { listing with id := some new_id, client_id := none }
  (db ++ [row], ApiResponse.successId new_id, 1)

/-- `POST /book/{listing_id}`: SELECTs the row; replies "No encontrada" when
absent, "Ya está reservado" when the status is not AVAILABLE, a 400
response when the listing's `user_id` equals the requester's `client_id`,
and otherwise UPDATEs status to BOOKED with `client_id` set, broadcasts
once, and replies success "Contratado". -/
def book_listing (db : List Listing) (listing_id : String)
    (req_client_id : String) : HandlerResult :=
  match db.find? (fun l => l.id == some listing_id) with
  | none => (db, ApiResponse.error "No encontrada", 0)
  | some row =>
      if row.status ≠ "AVAILABLE" then
        (db, ApiResponse.error "Ya está reservado", 0)
      else if row.user_id = some req_client_id then
        (db, ApiResponse.errorResponse 400 "No puedes contratar tu propia fila", 0)
      else
        (db.map (fun l =>
            if l.id = some listing_id then
              { l with status := "BOOKED", client_id := some req_client_id }
            else l),
         ApiResponse.success "Contratado", 1)

/-- `POST /complete/{listing_id}`: SELECTs the row; replies "No válido" when
absent, "Ya pagado" when it is already COMPLETED, and otherwise UPDATEs the
status to COMPLETED, broadcasts once, and replies success "Validado". -/
def complete_job (db : List Listing) (listing_id : String) : HandlerResult :=
  match db.find? (fun l => l.id == some listing_id) with
  | none => (db, ApiResponse.error "No válido", 0)
  | some row =>
      if row.status = "COMPLETED" then
        (db, ApiResponse.error "Ya pagado", 0)
      else
        (db.map (fun l =>
            if l.id = some listing_id then { l with status := "COMPLETED" }
            else l),
         ApiResponse.success "Validado", 1)

/-- `DELETE /listings/{listing_id}`: runs the DELETE unconditionally (no
existence check, no affected-row count), broadcasts once, and always
replies success "Eliminada". -/
def delete_listing (db : List Listing) (listing_id : String) : HandlerResult :=
  (db.filter (fun l => l.id != some listing_id),
   ApiResponse.success "Eliminada", 1)

/-- Whether an envelope reports success (`{"status": "success", ...}`). -/
def ApiResponse.isSuccess : ApiResponse → Bool
  | ApiResponse.success _ => true
  | ApiResponse.successId _ => true
  | ApiResponse.error _ => false
  | ApiResponse.errorResponse _ _ => false

/-- A connected WebSocket client: an identity tag plus whether
`send_text` raises for it (a dead/failed connection). -/
structure Observer where
  oid : Nat
  sendFails : Bool
deriving Repr, DecidableEq

/-- The `ConnectionManager` of `src/main.py`: the list of active
WebSocket connections. -/
structure ConnectionManager where
  active_connections : List Observer
deriving Repr, DecidableEq

/-- `ConnectionManager.connect`: accept the socket and append it. -/
def ConnectionManager.connect (m : ConnectionManager) (w : Observer) :
    ConnectionManager :=
  ⟨m.active_connections ++ [w]⟩

/-- `ConnectionManager.disconnect`: `self.active_connections.remove(websocket)`.
Python `list.remove` deletes the first matching element and raises
`ValueError` when no element matches. -/
def ConnectionManager.disconnect (m : ConnectionManager) (w : Observer) :
    Except String ConnectionManager :=
  if w ∈ m.active_connections then
    Except.ok ⟨m.active_connections.erase w⟩
  else
    Except.error "ValueError: list.remove(x): x not in list"

/-- `ConnectionManager.broadcast`: loops over `active_connections`, sending to
each inside `try/except Exception: pass`.  No exception escapes, the
connection list is not modified, and every observer whose send does not
raise receives the message.  Returns (state after the call, the observers
the message was delivered to). -/
def ConnectionManager.broadcast (m : ConnectionManager) (message : String) :
    ConnectionManager × List Observer :=
  (m, m.active_connections.filter (fun o => !o.sendFails))

/-- The mutating listing-store operations a client can drive through the
HTTP surface after creation: Book and Complete (claim C1 quantifies over
sequences of these). -/
inductive Op where
  | book (listing_id req_client_id : String)
  | complete (listing_id : String)
deriving Repr, DecidableEq

/-- The table after one operation. -/
def applyOp (db : List Listing) : Op → List Listing
  | Op.book lid cid => (book_listing db lid cid).1
  | Op.complete lid => (complete_job db lid).1

/-- The table after a sequence of operations. -/
def runOps (db : List Listing) : List Op → List Listing
  | [] => db
  | op :: ops => runOps (applyOp db op) ops

/-- Numeric position of a status along the lifecycle
AVAILABLE → BOOKED → COMPLETED (`none` for a string outside it). -/
def statusRank : String → Option Nat
  | "AVAILABLE" => some 0
  | "BOOKED" => some 1
  | "COMPLETED" => some 2
  | _ => none

/-- `s₁` is no further along the lifecycle than `s₂`. -/
def statusForward (s₁ s₂ : String) : Prop :=
  ∀ r₁, statusRank s₁ = some r₁ →
    ∃ r₂, statusRank s₂ = some r₂ ∧ r₁ ≤ r₂

/-- The `listings` table's PRIMARY KEY contract: pairwise distinct ids. -/
def uniqueIds (db : List Listing) : Prop :=
  db.Pairwise (fun a b => a.id ≠ b.id)

/-- Concrete AVAILABLE listing (the §8 example of the spec). -/
def l_avail : Listing :=
  { id := some "a", title := "Mow lawn", price := 20, lat := 10, lng := 20,
    status := "AVAILABLE", user_id := some "bob" }

/-- Concrete listing that is already BOOKED. -/
def l_booked : Listing :=
  { id := some "b", title := "Mow lawn", price := 20, lat := 10, lng := 20,
    status := "BOOKED", user_id := some "bob", client_id := some "alice" }

/-- Concrete listing that is already COMPLETED. -/
def l_completed : Listing :=
  { id := some "c", title := "Mow lawn", price := 20, lat := 10, lng := 20,
    status := "COMPLETED", user_id := some "bob", client_id := some "alice" }

/-- Concrete create request that carries a client-supplied non-default
status. -/
def booked_request : Listing :=
  { title := "Mow lawn", price := 20, lat := 10, lng := 20,
    status := "BOOKED", user_id := some "bob" }

/-- The broadcast count of `book_listing` is 1 exactly on the success
envelope and 0 on every error envelope. -/
theorem book_count_eq (db : List Listing) (lid cid : String) :
    (book_listing db lid cid).2.2 =
      (if ApiResponse.isSuccess (book_listing db lid cid).2.1 then 1 else 0) := by
  cases hfind : db.find? (fun l => l.id == some lid) with
  | none => simp [book_listing, hfind, ApiResponse.isSuccess]
  | some row =>
      by_cases h1 : row.status = "AVAILABLE"
      · by_cases h2 : row.user_id = some cid
        · simp [book_listing, hfind, h1, h2, ApiResponse.isSuccess]
        · simp [book_listing, hfind, h1, h2, ApiResponse.isSuccess]
      · simp [book_listing, hfind, h1, ApiResponse.isSuccess]

/-- The broadcast count of `complete_job` is 1 exactly on the success
envelope and 0 on every error envelope. -/
theorem complete_count_eq (db : List Listing) (lid : String) :
    (complete_job db lid).2.2 =
      (if ApiResponse.isSuccess (complete_job db lid).2.1 then 1 else 0) := by
  cases hfind : db.find? (fun l => l.id == some lid) with
  | none => simp [complete_job, hfind, ApiResponse.isSuccess]
  | some row =>
      by_cases h1 : row.status = "COMPLETED"
      · simp [complete_job, hfind, h1, ApiResponse.isSuccess]
      · simp [complete_job, hfind, h1, ApiResponse.isSuccess]

/-- C2: Book fails NotFound when the id is absent, then InvalidTransition
when the status is not AVAILABLE, then SelfBookingForbidden (HTTP 400) when
the booker equals the listing's owner, in that order; each failure leaves
the store unchanged and broadcasts nothing; otherwise it replies success,
sets the matching row's status to BOOKED with `client_id` = the booker,
and leaves every other row unchanged. -/
theorem c2_book_contract :
    ∀ (db : List Listing) (lid cid : String),
      ((∀ l, l ∈ db → l.id ≠ some lid) →
        book_listing db lid cid = (db, ApiResponse.error "No encontrada", 0)) ∧
      (∀ row, db.find? (fun l => l.id == some lid) = some row →
        (row.status ≠ "AVAILABLE" →
          book_listing db lid cid = (db, ApiResponse.error "Ya está reservado", 0)) ∧
        (row.status = "AVAILABLE" → row.user_id = some cid →
          book_listing db lid cid =
            (db, ApiResponse.errorResponse 400 "No puedes contratar tu propia fila", 0)) ∧
        (row.status = "AVAILABLE" → row.user_id ≠ some cid →
          (book_listing db lid cid).2 = (ApiResponse.success "Contratado", 1) ∧
          (∀ l, l ∈ db → l.id = some lid →
            { l with status := "BOOKED", client_id := some cid } ∈
              (book_listing db lid cid).1) ∧
          (∀ l, l ∈ db → l.id ≠ some lid → l ∈ (book_listing db lid cid).1))) := by
  intro db lid cid
  constructor
  · intro habs
    have hn : db.find? (fun l => l.id == some lid) = none :=
      List.find?_eq_none.mpr (fun x hx => by simpa using habs x hx)
    simp [book_listing, hn]
  · intro row hfind
    refine ⟨?_, ?_, ?_⟩
    · intro hst
      simp only [book_listing, hfind]
      rw [if_pos hst]
    · intro hst hself
      simp only [book_listing, hfind]
      rw [if_neg (not_not_intro hst), if_pos hself]
    · intro hst hself
      simp only [book_listing, hfind]
      rw [if_neg (not_not_intro hst), if_neg hself]
      refine ⟨rfl, ?_, ?_⟩
      · intro l hl hid
        refine List.mem_map.mpr ⟨l, hl, ?_⟩
        rw [if_pos hid]
      · intro l hl hid
        refine List.mem_map.mpr ⟨l, hl, ?_⟩
        rw [if_neg hid]

/-- C2 witness: booking one's own listing is rejected with the 400
self-booking response and the store is unchanged. -/
theorem c2_book_contract_witness :
    book_listing [l_avail] "a" "bob" =
      ([l_avail], ApiResponse.errorResponse 400 "No puedes contratar tu propia fila", 0) :=
  ((c2_book_contract [l_avail] "a" "bob").2 l_avail (by decide)).2.1 rfl rfl

/-- C3: Complete fails NotFound when the id is absent, fails
AlreadyCompleted when the row is already COMPLETED, and otherwise —
including from AVAILABLE, without any prior booking — replies success,
sets the matching row's status to COMPLETED, and leaves every other row
unchanged. -/
theorem c3_complete_contract :
    ∀ (db : List Listing) (lid : String),
      ((∀ l, l ∈ db → l.id ≠ some lid) →
        complete_job db lid = (db, ApiResponse.error "No válido", 0)) ∧
      (∀ row, db.find? (fun l => l.id == some lid) = some row →
        (row.status = "COMPLETED" →
          complete_job db lid = (db, ApiResponse.error "Ya pagado", 0)) ∧
        (row.status ≠ "COMPLETED" →
          (complete_job db lid).2 = (ApiResponse.success "Validado", 1) ∧
          (∀ l, l ∈ db → l.id = some lid →
            { l with status := "COMPLETED" } ∈ (complete_job db lid).1) ∧
          (∀ l, l ∈ db → l.id ≠ some lid → l ∈ (complete_job db lid).1))) := by
  intro db lid
  constructor
  · intro habs
    have hn : db.find? (fun l => l.id == some lid) = none :=
      List.find?_eq_none.mpr (fun x hx => by simpa using habs x hx)
    simp [complete_job, hn]
  · intro row hfind
    constructor
    · intro hst
      simp only [complete_job, hfind]
      rw [if_pos hst]
    · intro hst
      simp only [complete_job, hfind]
      rw [if_neg hst]
      refine ⟨rfl, ?_, ?_⟩
      · intro l hl hid
        refine List.mem_map.mpr ⟨l, hl, ?_⟩
        rw [if_pos hid]
      · intro l hl hid
        refine List.mem_map.mpr ⟨l, hl, ?_⟩
        rw [if_neg hid]

/-- C3 witness: completing a listing that is still AVAILABLE (never booked)
succeeds with one broadcast. -/
theorem c3_complete_contract_witness :
    (complete_job [l_avail] "a").2 = (ApiResponse.success "Validado", 1) :=
  (((c3_complete_contract [l_avail] "a").2 l_avail (by decide)).2 (by decide)).1

/-- C4: Create and Delete always reply success and broadcast exactly once;
Book and Complete broadcast exactly once when they reply success and zero
times when they reply any validation error. -/
theorem c4_broadcast_counts :
    ∀ (db : List Listing) (req : Listing) (nid lid cid : String),
      (ApiResponse.isSuccess (create_listing db req nid).2.1 = true ∧
        (create_listing db req nid).2.2 = 1) ∧
      (ApiResponse.isSuccess (book_listing db lid cid).2.1 = true →
        (book_listing db lid cid).2.2 = 1) ∧
      (ApiResponse.isSuccess (book_listing db lid cid).2.1 = false →
        (book_listing db lid cid).2.2 = 0) ∧
      (ApiResponse.isSuccess (complete_job db lid).2.1 = true →
        (complete_job db lid).2.2 = 1) ∧
      (ApiResponse.isSuccess (complete_job db lid).2.1 = false →
        (complete_job db lid).2.2 = 0) ∧
      (ApiResponse.isSuccess (delete_listing db lid).2.1 = true ∧
        (delete_listing db lid).2.2 = 1) := by
  intro db req nid lid cid
  refine ⟨⟨rfl, rfl⟩, ?_, ?_, ?_, ?_, ⟨rfl, rfl⟩⟩
  · intro h
    rw [book_count_eq, if_pos h]
  · intro h
    rw [book_count_eq, if_neg (by simp [h])]
  · intro h
    rw [complete_count_eq, if_pos h]
  · intro h
    rw [complete_count_eq, if_neg (by simp [h])]

/-- C4 witness: a successful Book broadcasts once; a Book that fails
validation (NotFound here) broadcasts zero times. -/
theorem c4_broadcast_counts_witness :
    (book_listing [l_avail] "a" "alice").2.2 = 1 ∧
    (book_listing [] "a" "alice").2.2 = 0 :=
  ⟨(c4_broadcast_counts [l_avail] booked_request "n" "a" "alice").2.1 (by decide),
   (c4_broadcast_counts [] booked_request "n" "a" "alice").2.2.1 (by decide)⟩

/-- C5 counterexample: deleting an id that does not exist still replies
with the success envelope (and broadcasts), instead of failing with
NotFound as the claim states. -/
theorem c5_delete_counterexample :
    delete_listing [] "missing-id" = ([], ApiResponse.success "Eliminada", 1) ∧
    ApiResponse.isSuccess (delete_listing [] "missing-id").2.1 = true := by
  constructor <;> rfl

/-- C5 (amended): Delete never fails with NotFound — it unconditionally
removes every record with the given id (a no-op when absent) and always
replies success "Eliminada" with one broadcast; afterwards no listing with
that id remains, and a subsequent Book or Complete on that id fails with
NotFound and leaves the store unchanged. -/
theorem c5_delete_amended :
    ∀ (db : List Listing) (lid cid : String),
      (delete_listing db lid).2 = (ApiResponse.success "Eliminada", 1) ∧
      (∀ l, l ∈ (delete_listing db lid).1 → l.id ≠ some lid) ∧
      book_listing (delete_listing db lid).1 lid cid =
        ((delete_listing db lid).1, ApiResponse.error "No encontrada", 0) ∧
      complete_job (delete_listing db lid).1 lid =
        ((delete_listing db lid).1, ApiResponse.error "No válido", 0) := by
  intro db lid cid
  have h1 : ∀ l, l ∈ (delete_listing db lid).1 → l.id ≠ some lid := by
    intro l hl
    have hp := (List.mem_filter.mp hl).2
    simpa using hp
  have hn : (delete_listing db lid).1.find? (fun l => l.id == some lid) = none := by
    apply List.find?_eq_none.mpr
    intro x hx
    simpa using h1 x hx
  refine ⟨rfl, h1, ?_, ?_⟩
  · simp [book_listing, hn]
  · simp [complete_job, hn]

/-- C5 witness: after deleting listing "a" from a two-listing store, the
remaining listing does not carry id "a". -/
theorem c5_delete_amended_witness :
    Listing.id l_booked ≠ some "a" :=
  (c5_delete_amended [l_avail, l_booked] "a" "alice").2.1 l_booked (by decide)

/-- C6 counterexample: broadcasting with a failing observer registered
leaves the active set unchanged — the failing observer is NOT removed
from the active set, contrary to the claim. -/
theorem c6_broadcast_counterexample :
    ConnectionManager.broadcast ⟨[⟨1, true⟩, ⟨2, false⟩]⟩ "update" =
      (⟨[⟨1, true⟩, ⟨2, false⟩]⟩, [⟨2, false⟩]) ∧
    (⟨1, true⟩ : Observer) ∈
      (ConnectionManager.broadcast ⟨[⟨1, true⟩, ⟨2, false⟩]⟩ "update").1.active_connections := by
  constructor <;> decide

/-- C6 (amended): a failed send to one observer does not block delivery to
any other (every observer whose send does not fail still receives the
signal), and the failure is never surfaced to the caller of Broadcast —
but the failing observer is NOT removed: the active set is left exactly
as it was, and only the delivered set excludes the failing observers. -/
theorem c6_broadcast_amended :
    ∀ (m : ConnectionManager) (msg : String),
      (m.broadcast msg).1 = m ∧
      (∀ o, o ∈ m.active_connections → o.sendFails = false →
        o ∈ (m.broadcast msg).2) ∧
      (∀ o, o ∈ (m.broadcast msg).2 →
        o ∈ m.active_connections ∧ o.sendFails = false) := by
  intro m msg
  refine ⟨rfl, ?_, ?_⟩
  · intro o ho hf
    exact List.mem_filter.mpr ⟨ho, by simp [hf]⟩
  · intro o ho
    have h := List.mem_filter.mp ho
    exact ⟨h.1, by simpa using h.2⟩

/-- C6 witness: with a failing observer ahead of it in the list, the
healthy observer still receives the broadcast. -/
theorem c6_broadcast_amended_witness :
    (⟨2, false⟩ : Observer) ∈
      (ConnectionManager.broadcast ⟨[⟨1, true⟩, ⟨2, false⟩]⟩ "update").2 :=
  (c6_broadcast_amended ⟨[⟨1, true⟩, ⟨2, false⟩]⟩ "update").2.1 ⟨2, false⟩
    (by decide) rfl

/-- C7 counterexample: when the store is unreachable, `get_listings`
propagates the connectivity failure instead of returning the empty
collection the claim promises. -/
theorem c7_listings_counterexample :
    get_listings (Except.error "could not connect to server") =
      Except.error "could not connect to server" ∧
    get_listings (Except.error "could not connect to server") ≠
      Except.ok ([] : List Listing) := by
  refine ⟨rfl, ?_⟩
  intro h
  exact Except.noConfusion h

/-- C7 (amended): the `GET /listings` handler has no exception handling —
a connectivity failure of the underlying store propagates to the caller
as a failure, and a successful read returns all rows verbatim. -/
theorem c7_listings_propagate :
    (∀ e : String, get_listings (Except.error e) = Except.error e) ∧
    (∀ rows : List Listing, get_listings (Except.ok rows) = Except.ok rows) :=
  ⟨fun _ => rfl, fun _ => rfl⟩

/-- C8 counterexample: a create request carrying status "BOOKED" is
persisted with status "BOOKED", not "AVAILABLE"; and the response carries
only the success envelope with the generated id, not the full record. -/
theorem c8_create_counterexample :
    (create_listing [] booked_request "id-1").1.map Listing.status = ["BOOKED"] ∧
    "BOOKED" ≠ "AVAILABLE" ∧
    (create_listing [] booked_request "id-1").2.1 = ApiResponse.successId "id-1" := by
  refine ⟨rfl, ?_, rfl⟩
  decide

/-- C8 (amended): Create overwrites any client-supplied id with the freshly
generated one and persists the record with the request's `status` field —
which defaults to "AVAILABLE" only when the client omits it — and with
`client_id` NULL (the INSERT omits that column); it replies with a success
envelope carrying just the generated id, and broadcasts once. -/
theorem c8_create_amended :
    (∀ (db : List Listing) (req : Listing) (nid : String),
      create_listing db req nid =
        (db ++ [{ req with id := some nid, client_id := none }],
         ApiResponse.successId nid, 1)) ∧
    (∀ (t : String) (p : Int) (la ln : Rat),
      ({ title := t, price := p, lat := la, lng := ln } : Listing).status =
        "AVAILABLE") :=
  ⟨fun _ _ _ => rfl, fun _ _ _ _ => rfl⟩

/-- C9 counterexample: unregistering an observer that is not in the active
set raises (Python `list.remove` raises `ValueError`), contrary to the
claim that Unregister never raises. -/
theorem c9_disconnect_counterexample :
    ConnectionManager.disconnect ⟨[]⟩ ⟨1, false⟩ =
      Except.error "ValueError: list.remove(x): x not in list" := by
  rfl

/-- C9 (amended): Unregister raises ValueError when the observer is not in
the active set; when the observer is registered (once, as the connect
lifecycle guarantees), Unregister succeeds, removes it, and the observer
receives no subsequent broadcasts. -/
theorem c9_disconnect_amended :
    ∀ (m : ConnectionManager) (w : Observer) (msg : String),
      (w ∉ m.active_connections →
        m.disconnect w = Except.error "ValueError: list.remove(x): x not in list") ∧
      (w ∈ m.active_connections → m.active_connections.count w ≤ 1 →
        ∃ m', m.disconnect w = Except.ok m' ∧
          w ∉ m'.active_connections ∧
          w ∉ (m'.broadcast msg).2) := by
  intro m w msg
  constructor
  · intro h
    simp [ConnectionManager.disconnect, h]
  · intro hmem hcount
    refine ⟨⟨m.active_connections.erase w⟩, ?_, ?_, ?_⟩
    · simp [ConnectionManager.disconnect, hmem]
    · have h1 : (m.active_connections.erase w).count w =
          m.active_connections.count w - 1 := List.count_erase_self w _
      have h2 : 0 < m.active_connections.count w := List.count_pos_iff.mpr hmem
      have h0 : (m.active_connections.erase w).count w = 0 := by omega
      exact List.count_eq_zero.mp h0
    · intro hw
      have h1 : (m.active_connections.erase w).count w =
          m.active_connections.count w - 1 := List.count_erase_self w _
      have h2 : 0 < m.active_connections.count w := List.count_pos_iff.mpr hmem
      have h0 : (m.active_connections.erase w).count w = 0 := by omega
      exact List.count_eq_zero.mp h0 (List.mem_filter.mp hw).1

/-- C9 witness: disconnecting a registered observer succeeds, removes it,
and it is absent from the next broadcast's delivered set. -/
theorem c9_disconnect_amended_witness :
    ∃ m', ConnectionManager.disconnect ⟨[⟨1, false⟩]⟩ ⟨1, false⟩ = Except.ok m' ∧
      (⟨1, false⟩ : Observer) ∉ m'.active_connections ∧
      (⟨1, false⟩ : Observer) ∉ (m'.broadcast "update").2 :=
  (c9_disconnect_amended ⟨[⟨1, false⟩]⟩ ⟨1, false⟩ "update").2 (by decide)
    (by decide)

/-- C10 counterexample: a second Complete on an already-COMPLETED listing
replies with the message "Ya pagado", not "Ya fue pagado" as claimed. -/
theorem c10_messages_counterexample :
    (complete_job [l_completed] "c").2.1 = ApiResponse.error "Ya pagado" ∧
    ApiResponse.error "Ya pagado" ≠ ApiResponse.error "Ya fue pagado" := by
  refine ⟨rfl, ?_⟩
  decide

/-- C10 (amended): a Book on a listing that is already BOOKED replies with
error message "Ya está reservado", and a Complete on a listing that is
already COMPLETED replies with error message "Ya pagado"; both leave the
store unchanged and broadcast nothing. -/
theorem c10_messages_amended :
    ∀ (db : List Listing) (lid cid : String) (row : Listing),
      db.find? (fun l => l.id == some lid) = some row →
      (row.status = "BOOKED" →
        book_listing db lid cid = (db, ApiResponse.error "Ya está reservado", 0)) ∧
      (row.status = "COMPLETED" →
        complete_job db lid = (db, ApiResponse.error "Ya pagado", 0)) := by
  intro db lid cid row hfind
  constructor
  · intro hst
    simp [book_listing, hfind, hst]
  · intro hst
    simp [complete_job, hfind, hst]

/-- C10 witness: booking the already-BOOKED listing replies
"Ya está reservado". -/
theorem c10_messages_amended_witness :
    book_listing [l_booked] "b" "alice" =
      ([l_booked], ApiResponse.error "Ya está reservado", 0) :=
  (c10_messages_amended [l_booked] "b" "alice" l_booked (by decide)).1 rfl

/-- Under the PRIMARY KEY contract, two members of the table with the same
id are the same row. -/
theorem uniq_mem (db : List Listing) :
    uniqueIds db → ∀ a, a ∈ db → ∀ b, b ∈ db → a.id = b.id → a = b := by
  induction db with
  | nil =>
      intro _ a ha
      exact absurd ha (List.not_mem_nil a)
  | cons x xs ih =>
      intro hdb a ha b hb hid
      unfold uniqueIds at hdb
      have hx : ∀ y ∈ xs, x.id ≠ y.id := (List.pairwise_cons.mp hdb).1
      have hxs : uniqueIds xs := (List.pairwise_cons.mp hdb).2
      rcases List.mem_cons.mp ha with rfl | ha'
      · rcases List.mem_cons.mp hb with rfl | hb'
        · rfl
        · exact absurd hid (hx b hb')
      · rcases List.mem_cons.mp hb with rfl | hb'
        · exact absurd hid.symm (hx a ha')
        · exact ih hxs a ha' b hb' hid

/-- Every lifecycle rank is at most the rank of COMPLETED. -/
theorem statusRank_le_two (s : String) (r : Nat) (h : statusRank s = some r) :
    r ≤ 2 := by
  unfold statusRank at h
  split at h <;> first | (injection h with h; omega) | exact Option.noConfusion h

/-- statusForward is reflexive. -/
theorem statusForward_refl (s : String) : statusForward s s :=
  fun r h => ⟨r, h, Nat.le_refl r⟩

/-- statusForward is transitive. -/
theorem statusForward_trans (a b c : String) :
    statusForward a b → statusForward b c → statusForward a c := by
  intro hab hbc r₁ h1
  obtain ⟨r₂, h2, hle⟩ := hab r₁ h1
  obtain ⟨r₃, h3, hle2⟩ := hbc r₂ h2
  exact ⟨r₃, h3, Nat.le_trans hle hle2⟩

/-- Any status moves forward to COMPLETED. -/
theorem statusForward_completed (s : String) : statusForward s "COMPLETED" :=
  fun r h => ⟨2, rfl, statusRank_le_two s r h⟩

/-- AVAILABLE moves forward to BOOKED. -/
theorem statusForward_avail_booked : statusForward "AVAILABLE" "BOOKED" := by
  intro r h
  have h0 : statusRank "AVAILABLE" = some 0 := rfl
  rw [h0] at h
  injection h with h
  exact ⟨1, rfl, by omega⟩

/-- Case analysis of the table after Book: every row of the new table comes
from a row of the old table with the same id, either untouched or taken
from AVAILABLE to BOOKED. -/
theorem book_mem_cases (db : List Listing) (lid cid : String)
    (hu : uniqueIds db) :
    ∀ l', l' ∈ (book_listing db lid cid).1 →
      ∃ l, l ∈ db ∧ l'.id = l.id ∧
        (l' = l ∨ (l.status = "AVAILABLE" ∧ l'.status = "BOOKED")) := by
  intro l' hl'
  cases hfind : db.find? (fun l => l.id == some lid) with
  | none =>
      simp only [book_listing, hfind] at hl'
      exact ⟨l', hl', rfl, Or.inl rfl⟩
  | some row =>
      have hrowmem : row ∈ db := List.mem_of_find?_eq_some hfind
      have hrowid : row.id = some lid := by
        have h := List.find?_some hfind
        simpa using h
      by_cases h1 : row.status = "AVAILABLE"
      · by_cases h2 : row.user_id = some cid
        · simp only [book_listing, hfind] at hl'
          rw [if_neg (not_not_intro h1), if_pos h2] at hl'
          exact ⟨l', hl', rfl, Or.inl rfl⟩
        · simp only [book_listing, hfind] at hl'
          rw [if_neg (not_not_intro h1), if_neg h2] at hl'
          obtain ⟨l, hl, hfl⟩ := List.mem_map.mp hl'
          by_cases hid : l.id = some lid
          · have hlrow : l = row :=
              uniq_mem db hu l hl row hrowmem (hid.trans hrowid.symm)
            refine ⟨l, hl, ?_, Or.inr ⟨by rw [hlrow]; exact h1, ?_⟩⟩
            · rw [← hfl, if_pos hid]
            · rw [← hfl, if_pos hid]
          · refine ⟨l, hl, ?_, Or.inl ?_⟩
            · rw [← hfl, if_neg hid]
            · rw [← hfl, if_neg hid]
      · simp only [book_listing, hfind] at hl'
        rw [if_pos h1] at hl'
        exact ⟨l', hl', rfl, Or.inl rfl⟩

/-- Case analysis of the table after Complete: every row of the new table
comes from a row of the old table with the same id, either untouched or
taken from a non-COMPLETED status to COMPLETED. -/
theorem complete_mem_cases (db : List Listing) (lid : String)
    (hu : uniqueIds db) :
    ∀ l', l' ∈ (complete_job db lid).1 →
      ∃ l, l ∈ db ∧ l'.id = l.id ∧
        (l' = l ∨ (l.status ≠ "COMPLETED" ∧ l'.status = "COMPLETED")) := by
  intro l' hl'
  cases hfind : db.find? (fun l => l.id == some lid) with
  | none =>
      simp only [complete_job, hfind] at hl'
      exact ⟨l', hl', rfl, Or.inl rfl⟩
  | some row =>
      have hrowmem : row ∈ db := List.mem_of_find?_eq_some hfind
      have hrowid : row.id = some lid := by
        have h := List.find?_some hfind
        simpa using h
      by_cases h1 : row.status = "COMPLETED"
      · simp only [complete_job, hfind] at hl'
        rw [if_pos h1] at hl'
        exact ⟨l', hl', rfl, Or.inl rfl⟩
      · simp only [complete_job, hfind] at hl'
        rw [if_neg h1] at hl'
        obtain ⟨l, hl, hfl⟩ := List.mem_map.mp hl'
        by_cases hid : l.id = some lid
        · have hlrow : l = row :=
            uniq_mem db hu l hl row hrowmem (hid.trans hrowid.symm)
          refine ⟨l, hl, ?_, Or.inr ⟨by rw [hlrow]; exact h1, ?_⟩⟩
          · rw [← hfl, if_pos hid]
          · rw [← hfl, if_pos hid]
        · refine ⟨l, hl, ?_, Or.inl ?_⟩
          · rw [← hfl, if_neg hid]
          · rw [← hfl, if_neg hid]

/-- Mapping an id-preserving function over the table keeps ids unique. -/
theorem uniqueIds_map (db : List Listing) (f : Listing → Listing)
    (hf : ∀ l, (f l).id = l.id) (h : uniqueIds db) : uniqueIds (db.map f) := by
  unfold uniqueIds at *
  rw [List.pairwise_map]
  refine h.imp ?_
  intro a b hab
  rw [hf, hf]
  exact hab

/-- The table after Book is either unchanged or the BOOKED-update map. -/
theorem book_db_cases (db : List Listing) (lid cid : String) :
    (book_listing db lid cid).1 = db ∨
    (book_listing db lid cid).1 =
      db.map (fun l => if l.id = some lid then
        { l with status := "BOOKED", client_id := some cid } else l) := by
  cases hfind : db.find? (fun l => l.id == some lid) with
  | none =>
      left
      simp [book_listing, hfind]
  | some row =>
      by_cases h1 : row.status = "AVAILABLE"
      · by_cases h2 : row.user_id = some cid
        · left
          simp only [book_listing, hfind]
          rw [if_neg (not_not_intro h1), if_pos h2]
        · right
          simp only [book_listing, hfind]
          rw [if_neg (not_not_intro h1), if_neg h2]
      · left
        simp only [book_listing, hfind]
        rw [if_pos h1]

/-- The table after Complete is either unchanged or the COMPLETED-update
map. -/
theorem complete_db_cases (db : List Listing) (lid : String) :
    (complete_job db lid).1 = db ∨
    (complete_job db lid).1 =
      db.map (fun l => if l.id = some lid then
        { l with status := "COMPLETED" } else l) := by
  cases hfind : db.find? (fun l => l.id == some lid) with
  | none =>
      left
      simp [complete_job, hfind]
  | some row =>
      by_cases h1 : row.status = "COMPLETED"
      · left
        simp only [complete_job, hfind]
        rw [if_pos h1]
      · right
        simp only [complete_job, hfind]
        rw [if_neg h1]

/-- Book and Complete keep table ids unique. -/
theorem applyOp_uniqueIds (db : List Listing) (op : Op) (h : uniqueIds db) :
    uniqueIds (applyOp db op) := by
  cases op with
  | book lid cid =>
      have heq : applyOp db (Op.book lid cid) = (book_listing db lid cid).1 := rfl
      rw [heq]
      rcases book_db_cases db lid cid with hc | hc
      · rw [hc]; exact h
      · rw [hc]
        refine uniqueIds_map db _ ?_ h
        intro l
        by_cases hid : l.id = some lid
        · rw [if_pos hid]
        · rw [if_neg hid]
  | complete lid =>
      have heq : applyOp db (Op.complete lid) = (complete_job db lid).1 := rfl
      rw [heq]
      rcases complete_db_cases db lid with hc | hc
      · rw [hc]; exact h
      · rw [hc]
        refine uniqueIds_map db _ ?_ h
        intro l
        by_cases hid : l.id = some lid
        · rw [if_pos hid]
        · rw [if_neg hid]

/-- One Book or Complete step: every row of the new table corresponds to a
row of the old table with the same id and a status no further back. -/
theorem applyOp_corr (db : List Listing) (op : Op) (hu : uniqueIds db) :
    ∀ l', l' ∈ applyOp db op →
      ∃ l, l ∈ db ∧ l'.id = l.id ∧ statusForward l.status l'.status := by
  intro l' hl'
  cases op with
  | book lid cid =>
      obtain ⟨l, hl, hid, hcase⟩ := book_mem_cases db lid cid hu l' hl'
      refine ⟨l, hl, hid, ?_⟩
      rcases hcase with rfl | ⟨h1, h2⟩
      · exact statusForward_refl _
      · rw [h1, h2]
        exact statusForward_avail_booked
  | complete lid =>
      obtain ⟨l, hl, hid, hcase⟩ := complete_mem_cases db lid hu l' hl'
      refine ⟨l, hl, hid, ?_⟩
      rcases hcase with rfl | ⟨h1, h2⟩
      · exact statusForward_refl _
      · rw [h2]
        exact statusForward_completed _

/-- Any sequence of Book/Complete steps: every row of the final table
corresponds to a row of the initial table with the same id and a status no
further back. -/
theorem runOps_corr (ops : List Op) :
    ∀ db : List Listing, uniqueIds db →
      ∀ l', l' ∈ runOps db ops →
        ∃ l, l ∈ db ∧ l'.id = l.id ∧ statusForward l.status l'.status := by
  induction ops with
  | nil =>
      intro db _ l' hl'
      exact ⟨l', hl', rfl, statusForward_refl _⟩
  | cons op ops ih =>
      intro db hu l' hl'
      simp only [runOps] at hl'
      obtain ⟨m, hm, hid, hf⟩ :=
        ih (applyOp db op) (applyOp_uniqueIds db op hu) l' hl'
      obtain ⟨l, hl, hid2, hf2⟩ := applyOp_corr db op hu m hm
      exact ⟨l, hl, hid.trans hid2, statusForward_trans _ _ _ hf2 hf⟩

/-- C1: under the table's PRIMARY KEY contract, Book changes a row's status
only from AVAILABLE to BOOKED, Complete changes it only from a
non-COMPLETED status to COMPLETED, and along every sequence of Book and
Complete operations each row's status only moves forward along the
AVAILABLE → BOOKED → COMPLETED ranking — it never decreases, and COMPLETED
is terminal. -/
theorem c1_status_forward :
    (∀ (db : List Listing) (lid cid : String) (l' : Listing),
      uniqueIds db → l' ∈ (book_listing db lid cid).1 →
      ∃ l, l ∈ db ∧ l'.id = l.id ∧
        (l' = l ∨ (l.status = "AVAILABLE" ∧ l'.status = "BOOKED"))) ∧
    (∀ (db : List Listing) (lid : String) (l' : Listing),
      uniqueIds db → l' ∈ (complete_job db lid).1 →
      ∃ l, l ∈ db ∧ l'.id = l.id ∧
        (l' = l ∨ (l.status ≠ "COMPLETED" ∧ l'.status = "COMPLETED"))) ∧
    (∀ (db : List Listing) (ops : List Op) (l' : Listing),
      uniqueIds db → l' ∈ runOps db ops →
      ∃ l, l ∈ db ∧ l'.id = l.id ∧ statusForward l.status l'.status) :=
  ⟨fun db lid cid l' hu hl' => book_mem_cases db lid cid hu l' hl',
   fun db lid l' hu hl' => complete_mem_cases db lid hu l' hl',
   fun db ops l' hu hl' => runOps_corr ops db hu l' hl'⟩

/-- The §8 example listing after being booked by "alice" and completed. -/
def l_done : Listing :=
  { l_avail with status := "COMPLETED", client_id := some "alice" }

/-- C1 witness: running Book then Complete on the example listing yields a
row that corresponds to the original AVAILABLE row with a
forward-only status move. -/
theorem c1_status_forward_witness :
    ∃ l, l ∈ [l_avail] ∧ l_done.id = l.id ∧
      statusForward l.status l_done.status :=
  c1_status_forward.2.2 [l_avail] [Op.book "a" "alice", Op.complete "a"] l_done
    (by simp [uniqueIds]) (by decide)
